import Mathlib

/-!
Verification of the IG-VHK username-resolution engine.

The definitions below are a shallow embedding of the three source files:
* `src/api/check-ig-username.ts` — the multi-tier (A/B/C) resolution engine,
  embedded as `apiCheck` together with the probe-event trace it produces;
* `src/check-ig-username.ts` — the single-tier edge handler, embedded as
  `edgeCheck`;
* `src/unnamed/part_000` — the single-tier Node handler with inline signals,
  embedded as `nodeCheck`.

HTTP statuses are natural numbers; a fetch `Response.ok` is status in 200..299.
A response body is modelled by its parse outcome: `malformed` (the `.json()`
call throws) or `parsed u?` (the JSON parsed and `data?.data?.user ?? null`
gave `u?`).  JavaScript numeric division is modelled over `ℚ`.
-/

/-! ### Validator (`isValidUsername`, identical in all three sources) -/

/-- One character of the regex class `[a-z0-9._]` with the `i` flag:
ASCII letters of either case, digits, period, underscore. -/
def isAllowedUsernameChar (c : Char) : Bool :=
  c.isAlpha || c.isDigit || c == '.' || c == '_'

/-- The test `/^[a-z0-9._]+$/i.test(u)`: at least one character and every
character in the class. -/
def matchesUsernameRegex (l : List Char) : Bool :=
  !l.isEmpty && l.all isAllowedUsernameChar

/-- `u.endsWith(".")`. -/
def endsWithDot (l : List Char) : Bool :=
  l.getLast? == some '.'

/-- `u.includes("..")`: some two consecutive characters are both periods. -/
def hasDoubleDot : List Char → Bool
  | [] => false
  | [_] => false
  | a :: b :: rest => (a == '.' && b == '.') || hasDoubleDot (b :: rest)

/-- `isValidUsername` from the sources: reject falsy (empty) input, length
outside 1..30, a character outside `[a-z0-9._]` (case-insensitive), a
trailing period, or a double period. -/
def isValidUsername (u : String) : Bool :=
  if u.data.isEmpty then false
  else if u.data.length < 1 ∨ 30 < u.data.length then false
  else if !matchesUsernameRegex u.data then false
  else if endsWithDot u.data then false
  else if hasDoubleDot u.data then false
  else true

/-! ### Spec-side validator predicate (from the spec's words, for C5) -/

/-- Modelled from the spec: a letter (case-insensitive), digit, underscore or
period. -/
def specAllowedChar (c : Char) : Prop :=
  ('a' ≤ c ∧ c ≤ 'z') ∨ ('A' ≤ c ∧ c ≤ 'Z') ∨ ('0' ≤ c ∧ c ≤ '9') ∨
    c = '_' ∨ c = '.'

/-- Modelled from the spec: non-empty, length in 1..30, only allowed
characters, no trailing period, no two consecutive periods. -/
def specValidUsername (u : String) : Prop :=
  u.data ≠ [] ∧ 1 ≤ u.data.length ∧ u.data.length ≤ 30 ∧
  (∀ c ∈ u.data, specAllowedChar c) ∧
  u.data.getLast? ≠ some '.' ∧
  ¬ ∃ i : Nat, u.data.get? i = some '.' ∧ u.data.get? (i + 1) = some '.'

theorem isAllowedUsernameChar_iff (c : Char) :
    isAllowedUsernameChar c = true ↔ specAllowedChar c := by
  have ea : 'a'.val = (97 : UInt32) := rfl
  have ez : 'z'.val = (122 : UInt32) := rfl
  have eA : 'A'.val = (65 : UInt32) := rfl
  have eZ : 'Z'.val = (90 : UInt32) := rfl
  have e0 : '0'.val = (48 : UInt32) := rfl
  have e9 : '9'.val = (57 : UInt32) := rfl
  simp only [isAllowedUsernameChar, specAllowedChar, Char.isAlpha,
    Char.isUpper, Char.isLower, Char.isDigit, Bool.or_eq_true,
    Bool.and_eq_true, decide_eq_true_eq, beq_iff_eq, Char.le_def,
    ge_iff_le, ea, ez, eA, eZ, e0, e9]
  tauto

theorem hasDoubleDot_iff (l : List Char) :
    hasDoubleDot l = true ↔
      ∃ i : Nat, l.get? i = some '.' ∧ l.get? (i + 1) = some '.' := by
  induction l with
  | nil => simp [hasDoubleDot]
  | cons a t ih =>
    cases t with
    | nil =>
      refine iff_of_false (by simp [hasDoubleDot]) ?_
      rintro ⟨i, h1, h2⟩
      rcases i with _ | i
      · simp at h2
      · simp at h1
    | cons b r =>
      simp only [hasDoubleDot, Bool.or_eq_true, Bool.and_eq_true, beq_iff_eq,
        ih]
      constructor
      · rintro (⟨ha, hb⟩ | ⟨i, h1, h2⟩)
        · exact ⟨0, by simp [ha], by simp [hb]⟩
        · exact ⟨i + 1, by simpa using h1, by simpa using h2⟩
      · rintro ⟨i, h1, h2⟩
        rcases i with _ | i
        · simp only [List.get?] at h1 h2
          exact Or.inl ⟨by injection h1, by injection h2⟩
        · exact Or.inr ⟨i, by simpa using h1, by simpa using h2⟩

theorem endsWithDot_iff (l : List Char) :
    endsWithDot l = true ↔ l.getLast? = some '.' := by
  simp [endsWithDot]

/-- C5: the Validator accepts exactly the strings the spec describes:
non-empty, length 1..30, only letters/digits/underscore/period
(case-insensitive), no trailing period, no two consecutive periods. -/
theorem c5_validator_iff_spec (u : String) :
    isValidUsername u = true ↔ specValidUsername u := by
  simp only [isValidUsername, specValidUsername]
  split_ifs with h1 h2 h3 h4 h5
  · simp only [false_iff]
    rintro ⟨hne, -⟩
    exact hne (List.isEmpty_iff.mp h1)
  · simp only [false_iff]
    rintro ⟨-, hlo, hhi, -⟩
    rcases h2 with h | h
    · omega
    · omega
  · simp only [false_iff]
    rintro ⟨hne, -, -, hchars, -⟩
    have hmf : matchesUsernameRegex u.data = false := by
      revert h3; cases matchesUsernameRegex u.data <;> simp
    cases hall : u.data.all isAllowedUsernameChar with
    | false =>
      rcases List.all_eq_false.mp hall with ⟨c, hc, hcbad⟩
      exact absurd ((isAllowedUsernameChar_iff c).mpr (hchars c hc))
        (by simp [hcbad])
    | true =>
      have hemp : u.data.isEmpty = true := by
        revert hmf; unfold matchesUsernameRegex; rw [hall]
        cases u.data.isEmpty <;> simp
      exact hne (List.isEmpty_iff.mp hemp)
  · simp only [false_iff]
    rintro ⟨-, -, -, -, hlast, -⟩
    exact hlast ((endsWithDot_iff _).mp h4)
  · simp only [false_iff]
    rintro ⟨-, -, -, -, -, hdd⟩
    exact hdd ((hasDoubleDot_iff _).mp h5)
  · simp only [true_iff]
    push_neg at h2
    have hm : matchesUsernameRegex u.data = true := by
      revert h3; cases matchesUsernameRegex u.data <;> simp
    unfold matchesUsernameRegex at hm
    rw [Bool.and_eq_true] at hm
    refine ⟨fun he => h1 (by simp [he]), by omega, by omega, ?_, ?_, ?_⟩
    · intro c hc
      exact (isAllowedUsernameChar_iff c).mp (List.all_eq_true.mp hm.2 c hc)
    · exact fun h => h4 ((endsWithDot_iff _).mpr h)
    · exact fun h => h5 ((hasDoubleDot_iff _).mpr h)

/-! ### Upstream data model -/

/-- The slice of Instagram's `data.user` JSON object that the handlers read.
Counts and picture URLs may be absent (`none`) in the payload. -/
structure IGUser where
  id : String
  full_name : String
  is_private : Bool
  is_verified : Bool
  edge_followed_by : Option Nat
  edge_follow : Option Nat
  profile_pic_url_hd : Option String
  profile_pic_url : Option String
deriving Repr, DecidableEq

/-- JavaScript truthiness of a string-or-undefined value: `undefined` and
`""` are falsy. -/
def jsTruthyStr : Option String → Bool
  | none => false
  | some s => s != ""

/-- JavaScript `a || b` on string-or-undefined values. -/
def jsOrStr (a b : Option String) : Option String :=
  if jsTruthyStr a then a else b

/-- The outcome of `await resp.json()` followed by `data?.data?.user ?? null`:
either the JSON parse throws, or it yields a user-or-null. -/
inductive BodyOutcome where
  | malformed : BodyOutcome
  | parsed : Option IGUser → BodyOutcome
deriving Repr, DecidableEq

/-- A raw upstream response: HTTP status plus the body's parse outcome. -/
structure UpResp where
  status : Nat
  body : BodyOutcome
deriving Repr, DecidableEq

/-- `Response.ok`: status in the 200..299 range. -/
def isOk (status : Nat) : Bool :=
  decide (200 ≤ status ∧ status ≤ 299)

/-! ### SignalExtractor (`buildSignalsFromUser` of `src/api/check-ig-username.ts`,
inlined identically in `src/unnamed/part_000`) -/

/-- `ratio !== null && ratio > 3`. -/
def ratioAboveThree : Option ℚ → Bool
  | none => false
  | some q => decide (3 < q)

/-- An avatar is present at some resolution (either pic URL is truthy). -/
def avatarPresent (user : IGUser) : Bool :=
  jsTruthyStr user.profile_pic_url_hd || jsTruthyStr user.profile_pic_url

/-- The signals record the code builds: defaulted counts, ratio, flag. -/
structure SignalsOut where
  followers : Nat
  following : Nat
  ratio : Option ℚ
  suspicious : Bool
deriving Repr, DecidableEq

/-- `buildSignalsFromUser`: counts default to 0 when absent (`?? 0`),
`ratio = following / followers` when followers > 0 else null, and the
`suspicious` disjunction exactly as in the source. -/
def buildSignalsFromUser (user : IGUser) : SignalsOut :=
  let followers := user.edge_followed_by.getD 0
  let following := user.edge_follow.getD 0
  let ratio : Option ℚ :=
    if 0 < followers then some ((following : ℚ) / (followers : ℚ)) else none
  { followers := followers
    following := following
    ratio := ratio
    suspicious :=
      (decide (followers = 0) && decide (0 < following)) ||
      ratioAboveThree ratio ||
      (!jsTruthyStr user.profile_pic_url_hd &&
        !jsTruthyStr user.profile_pic_url) }

/-- Example profile: followers 0, following 5, avatar present. -/
def zeroFiveUser : IGUser :=
  { id := "u1", full_name := "User One", is_private := false,
    is_verified := false, edge_followed_by := some 0, edge_follow := some 5,
    profile_pic_url_hd := some "https://cdn.example/u1_hd.jpg",
    profile_pic_url := some "https://cdn.example/u1.jpg" }

/-- Example profile: followers 100, following 10, avatar present. -/
def hundredTenUser : IGUser :=
  { id := "u2", full_name := "User Two", is_private := false,
    is_verified := true, edge_followed_by := some 100,
    edge_follow := some 10,
    profile_pic_url_hd := some "https://cdn.example/u2_hd.jpg",
    profile_pic_url := some "https://cdn.example/u2.jpg" }

/-- Example profile: followers 0, following 0, avatar present. -/
def zeroZeroUser : IGUser :=
  { id := "u3", full_name := "User Three", is_private := true,
    is_verified := false, edge_followed_by := some 0, edge_follow := some 0,
    profile_pic_url_hd := none,
    profile_pic_url := some "https://cdn.example/u3.jpg" }

/-- C6: for a profile with follower count F and following count G, the
extractor yields `ratio = G / F` when `F > 0` and null when `F = 0`, and
`suspicious` holds exactly when `F = 0 ∧ G > 0`, or the ratio is non-null
and exceeds 3, or no avatar is present (truthy) at any resolution; the
spec's three example profiles behave as stated. -/
theorem c6_signal_extractor :
    (∀ (user : IGUser) (F G : Nat),
        user.edge_followed_by = some F → user.edge_follow = some G →
        ((buildSignalsFromUser user).ratio =
            if 0 < F then some ((G : ℚ) / (F : ℚ)) else none) ∧
        ((buildSignalsFromUser user).suspicious = true ↔
          (F = 0 ∧ 0 < G) ∨
          (∃ q : ℚ, (buildSignalsFromUser user).ratio = some q ∧ 3 < q) ∨
          avatarPresent user = false)) ∧
    (buildSignalsFromUser zeroFiveUser).suspicious = true ∧
    (buildSignalsFromUser hundredTenUser).ratio = some (1 / 10 : ℚ) ∧
    (buildSignalsFromUser hundredTenUser).suspicious = false ∧
    (buildSignalsFromUser zeroZeroUser).ratio = none ∧
    (buildSignalsFromUser zeroZeroUser).suspicious = false := by
  refine ⟨?_,
    by simp [buildSignalsFromUser, zeroFiveUser],
    by simp [buildSignalsFromUser, hundredTenUser]; norm_num,
    by simp [buildSignalsFromUser, hundredTenUser, ratioAboveThree,
      jsTruthyStr]; norm_num,
    by simp [buildSignalsFromUser, zeroZeroUser],
    by simp [buildSignalsFromUser, zeroZeroUser, ratioAboveThree,
      jsTruthyStr]⟩
  intro user F G hF hG
  have hratio : (buildSignalsFromUser user).ratio =
      if 0 < F then some ((G : ℚ) / (F : ℚ)) else none := by
    simp [buildSignalsFromUser, hF, hG]
  have hsusp : (buildSignalsFromUser user).suspicious =
      ((decide (F = 0) && decide (0 < G)) ||
        ratioAboveThree (if 0 < F then some ((G : ℚ) / (F : ℚ)) else none) ||
        (!jsTruthyStr user.profile_pic_url_hd &&
          !jsTruthyStr user.profile_pic_url)) := by
    simp [buildSignalsFromUser, hF, hG]
  refine ⟨hratio, ?_⟩
  rw [hsusp, hratio]
  by_cases hF0 : 0 < F
  · simp only [if_pos hF0, ratioAboveThree, avatarPresent, Bool.or_eq_true,
      Bool.and_eq_true, decide_eq_true_eq, Bool.or_eq_false_iff,
      Bool.not_eq_true', Option.some.injEq]
    constructor
    · rintro ((⟨h1, h2⟩ | h) | ⟨hhd, hpic⟩)
      · exact Or.inl ⟨h1, h2⟩
      · exact Or.inr (Or.inl ⟨_, rfl, h⟩)
      · exact Or.inr (Or.inr ⟨hhd, hpic⟩)
    · rintro (⟨h1, h2⟩ | ⟨q, hq, h3⟩ | ⟨hhd, hpic⟩)
      · exact Or.inl (Or.inl ⟨h1, h2⟩)
      · left; right; rw [hq]; exact h3
      · exact Or.inr ⟨hhd, hpic⟩
  · simp only [if_neg hF0, ratioAboveThree, avatarPresent, Bool.or_eq_true,
      Bool.and_eq_true, decide_eq_true_eq, Bool.or_eq_false_iff,
      Bool.not_eq_true']
    constructor
    · rintro ((⟨h1, h2⟩ | h) | ⟨hhd, hpic⟩)
      · exact Or.inl ⟨h1, h2⟩
      · exact absurd h (by simp)
      · exact Or.inr (Or.inr ⟨hhd, hpic⟩)
    · rintro (⟨h1, h2⟩ | ⟨q, hq, h3⟩ | ⟨hhd, hpic⟩)
      · exact Or.inl (Or.inl ⟨h1, h2⟩)
      · exact absurd hq (by simp)
      · exact Or.inr ⟨hhd, hpic⟩


/-! ### VerificationResult model (multi-tier engine of `src/api/check-ig-username.ts`) -/

/-- Provenance label of Tier A. -/
def srcA : String := "i.instagram.com web_profile_info"

/-- Provenance label of Tier B. -/
def srcB : String := "www.instagram.com web_profile_info"

/-- Provenance label of Tier C. -/
def srcC : String := "public profile page"

/-- The 400 error body for a rejected identifier (same text in all sources). -/
def invalidUsernameMsg : String :=
  "Invalid username. Use 1–30 chars: letters, numbers, underscores, dots (no trailing dot or double dots)."

/-- The rate-limit error of the multi-tier handler. -/
def rateLimitedMsg : String := "Rate limited by Instagram."

/-- The serialized `user` object of the multi-tier handler and of
`src/unnamed/part_000`: counts are the defaulted numbers from the signals. -/
structure OutUser where
  id : String
  full_name : String
  is_private : Bool
  is_verified : Bool
  followers : Nat
  following : Nat
  profile_pic_url : Option String
deriving Repr, DecidableEq

/-- Build the serialized user: counts from the signals (`?? 0` defaults),
picture from `profile_pic_url_hd || profile_pic_url`. -/
def mkOutUser (user : IGUser) : OutUser :=
  { id := user.id, full_name := user.full_name,
    is_private := user.is_private, is_verified := user.is_verified,
    followers := (buildSignalsFromUser user).followers,
    following := (buildSignalsFromUser user).following,
    profile_pic_url := jsOrStr user.profile_pic_url_hd user.profile_pic_url }

/-- A serialized verdict of the multi-tier handler, together with the HTTP
status the handler asks the framing layer to emit. -/
structure Verdict where
  username : String
  available : Option Bool
  «exists» : Option Bool
  reason : Option String
  error : Option String
  via : String
  user : Option OutUser
  signals : Option SignalsOut
  confidence : Option String
  note : Option String
  httpStatus : Nat
deriving Repr, DecidableEq

/-- Status 404 at any tier: `{available:true, exists:false, reason:"not_found"}`. -/
def notFoundVerdict (username src : String) : Verdict :=
  { username, available := some true, «exists» := some false,
    reason := some "not_found", error := none, via := src, user := none,
    signals := none, confidence := none, note := none, httpStatus := 200 }

/-- Status 429 at Tier A (first probe) or Tier B: rate-limited Unknown. -/
def rateLimitedVerdict (username src : String) : Verdict :=
  { username, available := none, «exists» := none, reason := none,
    error := some rateLimitedMsg, via := src, user := none, signals := none,
    confidence := none, note := none, httpStatus := 429 }

/-- OK body with `user: null`: `{available:true, exists:false}` (no reason). -/
def availablePlainVerdict (username src : String) : Verdict :=
  { username, available := some true, «exists» := some false, reason := none,
    error := none, via := src, user := none, signals := none,
    confidence := none, note := none, httpStatus := 200 }

/-- OK body with a user: `{available:false, exists:true}` plus user/signals. -/
def foundVerdict (username src : String) (user : IGUser) : Verdict :=
  { username, available := some false, «exists» := some true, reason := none,
    error := none, via := src, user := some (mkOutUser user),
    signals := some (buildSignalsFromUser user), confidence := none,
    note := none, httpStatus := 200 }

/-- Tier C HTTP 200: exists-with-low-confidence. -/
def lowConfVerdict (username src : String) : Verdict :=
  { username, available := some false, «exists» := some true, reason := none,
    error := none, via := src, user := none, signals := none,
    confidence := some "low",
    note := some "Determined via public page status (HTML).", httpStatus := 200 }

/-- All tiers exhausted: Unknown with the last status, mapped to HTTP 502. -/
def upstreamVerdict (username src : String) (status : Nat) : Verdict :=
  { username, available := none, «exists» := none, reason := none,
    error := some ("Upstream error " ++ toString status), via := src,
    user := none, signals := none, confidence := none, note := none,
    httpStatus := 502 }

/-- A result of the multi-tier handler (engine part, GET request). -/
inductive ApiResult where
  | invalid : Nat → String → ApiResult
  | verdict : Verdict → ApiResult
deriving Repr, DecidableEq

/-- One outbound suspension of the engine: a probe of one tier, or the fixed
backoff delay before the Tier A retry. -/
inductive Ev where
  | probeA : Ev
  | delayMs : Nat → Ev
  | probeB : Ev
  | probeC : Ev
deriving Repr, DecidableEq

/-- The upstream environment: what each of the at most four outbound calls
would return (`respA2` is the Tier A retry's response). -/
structure Env where
  respA1 : UpResp
  respA2 : UpResp
  respB : UpResp
  respC : UpResp
deriving Repr, DecidableEq

/-- The `if (r.ok) { try parse } ` block shared by Tiers A and B: `some u?`
when the status is OK and the body parses (to a user or null), `none` when
the tier is inconclusive (non-OK status or JSON parse throw). -/
def okBody (r : UpResp) : Option (Option IGUser) :=
  if isOk r.status then
    match r.body with
    | .malformed => none
    | .parsed u => some u
  else none

/-- Classify a parsed OK body: null user means available, otherwise found. -/
def userVerdict (username src : String) : Option IGUser → Verdict
  | none => availablePlainVerdict username src
  | some user => foundVerdict username src user

/-- Whether the Tier A first response triggers the single retry. -/
def retriesA (env : Env) : Prop :=
  env.respA1.status = 400 ∨ env.respA1.status = 403

instance (env : Env) : Decidable (retriesA env) := by
  unfold retriesA; infer_instance

/-- The Tier A response the OK-classification runs on: the retry's response
after a 400/403, otherwise the first response. -/
def effectiveA (env : Env) : UpResp :=
  if retriesA env then env.respA2 else env.respA1

/-- The outbound events of the Tier A stage. -/
def tierATrace (env : Env) : List Ev :=
  if retriesA env then [.probeA, .delayMs 250, .probeA] else [.probeA]

/-- The multi-tier resolution engine of `src/api/check-ig-username.ts`,
returning the result and the ordered list of outbound events.  Mirrors the
handler line by line: validate; Tier A with 404/429 checks on the first
response only, one retry on 400/403, OK-body classification; Tier B with
404/429 checks and OK-body classification; Tier C classified by status
alone; otherwise the upstream-error 502 result. -/
def apiCheck (username : String) (env : Env) : ApiResult × List Ev :=
  if isValidUsername username = false then
    (.invalid 400 invalidUsernameMsg, [])
  else if env.respA1.status = 404 then
    (.verdict (notFoundVerdict username srcA), [.probeA])
  else if env.respA1.status = 429 then
    (.verdict (rateLimitedVerdict username srcA), [.probeA])
  else
    match okBody (effectiveA env) with
    | some u => (.verdict (userVerdict username srcA u), tierATrace env)
    | none =>
      if env.respB.status = 404 then
        (.verdict (notFoundVerdict username srcB), tierATrace env ++ [.probeB])
      else if env.respB.status = 429 then
        (.verdict (rateLimitedVerdict username srcB),
          tierATrace env ++ [.probeB])
      else
        match okBody env.respB with
        | some u =>
          (.verdict (userVerdict username srcB u), tierATrace env ++ [.probeB])
        | none =>
          if env.respC.status = 404 then
            (.verdict (notFoundVerdict username srcC),
              tierATrace env ++ [.probeB, .probeC])
          else if isOk env.respC.status then
            (.verdict (lowConfVerdict username srcC),
              tierATrace env ++ [.probeB, .probeC])
          else
            (.verdict (upstreamVerdict username srcC env.respC.status),
              tierATrace env ++ [.probeB, .probeC])

/-- Tier A ends inconclusive: first response neither 404 nor 429, and the
effective (possibly retried) response has no classifiable OK body. -/
def tierAInconclusive (env : Env) : Prop :=
  env.respA1.status ≠ 404 ∧ env.respA1.status ≠ 429 ∧
    okBody (effectiveA env) = none

/-- Tier B ends inconclusive: neither 404 nor 429 nor a classifiable OK body. -/
def tierBInconclusive (env : Env) : Prop :=
  env.respB.status ≠ 404 ∧ env.respB.status ≠ 429 ∧ okBody env.respB = none

/-! ### Single-tier edge handler (`src/check-ig-username.ts`) -/

/-- Rate-limit error of the single-tier handlers. -/
def edgeRateLimitedMsg : String := "Rate limited by Instagram. Try again later."

/-- Parse-failure error of the single-tier handlers. -/
def nonJsonMsg : String := "Non-JSON response from Instagram."

/-- The edge handler's serialized user: the counts stay optional
(`?? undefined`). -/
structure EdgeOutUser where
  id : String
  full_name : String
  is_private : Bool
  is_verified : Bool
  edge_followed_by : Option Nat
  edge_follow : Option Nat
  profile_pic_url : Option String
deriving Repr, DecidableEq

/-- Build the edge handler's serialized user. -/
def mkEdgeOutUser (user : IGUser) : EdgeOutUser :=
  { id := user.id, full_name := user.full_name,
    is_private := user.is_private, is_verified := user.is_verified,
    edge_followed_by := user.edge_followed_by,
    edge_follow := user.edge_follow,
    profile_pic_url := jsOrStr user.profile_pic_url_hd user.profile_pic_url }

/-- A serialized verdict of the edge handler. -/
structure EdgeVerdict where
  username : String
  available : Option Bool
  «exists» : Option Bool
  reason : Option String
  error : Option String
  user : Option EdgeOutUser
  httpStatus : Nat
deriving Repr, DecidableEq

/-- Edge 404 verdict. -/
def edgeNotFound (username : String) : EdgeVerdict :=
  { username, available := some true, «exists» := some false,
    reason := some "not_found", error := none, user := none,
    httpStatus := 200 }

/-- Edge 429 verdict. -/
def edgeRateLimited (username : String) : EdgeVerdict :=
  { username, available := none, «exists» := none, reason := none,
    error := some edgeRateLimitedMsg, user := none, httpStatus := 429 }

/-- Edge non-OK-status verdict. -/
def edgeUpstream (username : String) (status : Nat) : EdgeVerdict :=
  { username, available := none, «exists» := none, reason := none,
    error := some ("Upstream error " ++ toString status), user := none,
    httpStatus := 502 }

/-- Edge parse-failure verdict. -/
def edgeNonJson (username : String) : EdgeVerdict :=
  { username, available := none, «exists» := none, reason := none,
    error := some nonJsonMsg, user := none, httpStatus := 502 }

/-- Edge OK-with-null-user verdict. -/
def edgeAvailable (username : String) : EdgeVerdict :=
  { username, available := some true, «exists» := some false, reason := none,
    error := none, user := none, httpStatus := 200 }

/-- Edge OK-with-user verdict. -/
def edgeFound (username : String) (user : IGUser) : EdgeVerdict :=
  { username, available := some false, «exists» := some true, reason := none,
    error := none, user := some (mkEdgeOutUser user), httpStatus := 200 }

/-- A result of the edge handler. -/
inductive EdgeResult where
  | invalid : Nat → String → EdgeResult
  | verdict : EdgeVerdict → EdgeResult
deriving Repr, DecidableEq

/-- The single-tier edge handler, with the number of outbound calls it made. -/
def edgeCheck (username : String) (r : UpResp) : EdgeResult × Nat :=
  if isValidUsername username = false then
    (.invalid 400 invalidUsernameMsg, 0)
  else if r.status = 404 then (.verdict (edgeNotFound username), 1)
  else if r.status = 429 then (.verdict (edgeRateLimited username), 1)
  else if isOk r.status = false then
    (.verdict (edgeUpstream username r.status), 1)
  else
    match r.body with
    | .malformed => (.verdict (edgeNonJson username), 1)
    | .parsed none => (.verdict (edgeAvailable username), 1)
    | .parsed (some user) => (.verdict (edgeFound username user), 1)

/-! ### Single-tier Node handler (`src/unnamed/part_000`) -/

/-- The signals object of `src/unnamed/part_000`: ratio and flag only. -/
structure SignalsRS where
  ratio : Option ℚ
  suspicious : Bool
deriving Repr, DecidableEq

/-- A serialized verdict of the Node handler. -/
structure NodeVerdict where
  username : String
  available : Option Bool
  «exists» : Option Bool
  reason : Option String
  error : Option String
  user : Option OutUser
  signals : Option SignalsRS
  httpStatus : Nat
deriving Repr, DecidableEq

/-- Node 404 verdict. -/
def nodeNotFound (username : String) : NodeVerdict :=
  { username, available := some true, «exists» := some false,
    reason := some "not_found", error := none, user := none, signals := none,
    httpStatus := 200 }

/-- Node 429 verdict. -/
def nodeRateLimited (username : String) : NodeVerdict :=
  { username, available := none, «exists» := none, reason := none,
    error := some edgeRateLimitedMsg, user := none, signals := none,
    httpStatus := 429 }

/-- Node non-OK-status verdict. -/
def nodeUpstream (username : String) (status : Nat) : NodeVerdict :=
  { username, available := none, «exists» := none, reason := none,
    error := some ("Upstream error " ++ toString status), user := none,
    signals := none, httpStatus := 502 }

/-- Node parse-failure verdict. -/
def nodeNonJson (username : String) : NodeVerdict :=
  { username, available := none, «exists» := none, reason := none,
    error := some nonJsonMsg, user := none, signals := none,
    httpStatus := 502 }

/-- Node OK-with-null-user verdict. -/
def nodeAvailable (username : String) : NodeVerdict :=
  { username, available := some true, «exists» := some false, reason := none,
    error := none, user := none, signals := none, httpStatus := 200 }

/-- Node OK-with-user verdict: user plus ratio/suspicious signals, computed
by the same formulas as `buildSignalsFromUser`. -/
def nodeFound (username : String) (user : IGUser) : NodeVerdict :=
  { username, available := some false, «exists» := some true, reason := none,
    error := none, user := some (mkOutUser user),
    signals := some { ratio := (buildSignalsFromUser user).ratio,
                      suspicious := (buildSignalsFromUser user).suspicious },
    httpStatus := 200 }

/-- A result of the Node handler. -/
inductive NodeResult where
  | invalid : Nat → String → NodeResult
  | verdict : NodeVerdict → NodeResult
deriving Repr, DecidableEq

/-- The single-tier Node handler of `src/unnamed/part_000`, with its
outbound call count. -/
def nodeCheck (username : String) (r : UpResp) : NodeResult × Nat :=
  if isValidUsername username = false then
    (.invalid 400 invalidUsernameMsg, 0)
  else if r.status = 404 then (.verdict (nodeNotFound username), 1)
  else if r.status = 429 then (.verdict (nodeRateLimited username), 1)
  else if isOk r.status = false then
    (.verdict (nodeUpstream username r.status), 1)
  else
    match r.body with
    | .malformed => (.verdict (nodeNonJson username), 1)
    | .parsed none => (.verdict (nodeAvailable username), 1)
    | .parsed (some user) => (.verdict (nodeFound username user), 1)

/-! ### Helper lemmas about the engine -/

theorem isOk_eq_false_iff (s : Nat) :
    isOk s = false ↔ ¬ (200 ≤ s ∧ s ≤ 299) := by
  simp [isOk]

theorem okBody_none_of_not_ok (r : UpResp) (h : isOk r.status = false) :
    okBody r = none := by
  unfold okBody
  rw [h]
  simp

theorem probeC_not_mem_tierATrace (env : Env) :
    Ev.probeC ∉ tierATrace env := by
  unfold tierATrace
  split <;> simp

theorem tierATrace_count_probeA (env : Env) :
    (tierATrace env).count Ev.probeA ≤ 2 := by
  unfold tierATrace
  split <;> simp [List.count_cons]

/-- Exhaustive characterization of the engine on a valid username: exactly
one of the nine classification outcomes happens, each with its result and
trace. -/
theorem apiCheck_result (u : String) (env : Env)
    (hv : isValidUsername u = true) :
    (env.respA1.status = 404 ∧
      apiCheck u env = (.verdict (notFoundVerdict u srcA), [.probeA])) ∨
    (env.respA1.status ≠ 404 ∧ env.respA1.status = 429 ∧
      apiCheck u env = (.verdict (rateLimitedVerdict u srcA), [.probeA])) ∨
    (env.respA1.status ≠ 404 ∧ env.respA1.status ≠ 429 ∧
      (∃ uu, okBody (effectiveA env) = some uu ∧
        apiCheck u env = (.verdict (userVerdict u srcA uu), tierATrace env))) ∨
    (tierAInconclusive env ∧ env.respB.status = 404 ∧
      apiCheck u env =
        (.verdict (notFoundVerdict u srcB), tierATrace env ++ [.probeB])) ∨
    (tierAInconclusive env ∧ env.respB.status ≠ 404 ∧
      env.respB.status = 429 ∧
      apiCheck u env =
        (.verdict (rateLimitedVerdict u srcB), tierATrace env ++ [.probeB])) ∨
    (tierAInconclusive env ∧ env.respB.status ≠ 404 ∧
      env.respB.status ≠ 429 ∧
      (∃ uu, okBody env.respB = some uu ∧
        apiCheck u env =
          (.verdict (userVerdict u srcB uu), tierATrace env ++ [.probeB]))) ∨
    (tierAInconclusive env ∧ tierBInconclusive env ∧
      env.respC.status = 404 ∧
      apiCheck u env = (.verdict (notFoundVerdict u srcC),
        tierATrace env ++ [.probeB, .probeC])) ∨
    (tierAInconclusive env ∧ tierBInconclusive env ∧
      env.respC.status ≠ 404 ∧ isOk env.respC.status = true ∧
      apiCheck u env = (.verdict (lowConfVerdict u srcC),
        tierATrace env ++ [.probeB, .probeC])) ∨
    (tierAInconclusive env ∧ tierBInconclusive env ∧
      env.respC.status ≠ 404 ∧ isOk env.respC.status = false ∧
      apiCheck u env = (.verdict (upstreamVerdict u srcC env.respC.status),
        tierATrace env ++ [.probeB, .probeC])) := by
  by_cases h1 : env.respA1.status = 404
  · exact Or.inl ⟨h1, by simp [apiCheck, hv, h1]⟩
  by_cases h2 : env.respA1.status = 429
  · exact Or.inr (Or.inl ⟨h1, h2, by simp [apiCheck, hv, h1, h2]⟩)
  rcases hok : okBody (effectiveA env) with _ | uu
  · have hA : tierAInconclusive env := ⟨h1, h2, hok⟩
    by_cases h3 : env.respB.status = 404
    · refine Or.inr (Or.inr (Or.inr (Or.inl ⟨hA, h3, ?_⟩)))
      simp [apiCheck, hv, h1, h2, hok, h3]
    by_cases h4 : env.respB.status = 429
    · refine Or.inr (Or.inr (Or.inr (Or.inr (Or.inl ⟨hA, h3, h4, ?_⟩))))
      simp [apiCheck, hv, h1, h2, hok, h3, h4]
    rcases hokB : okBody env.respB with _ | uu2
    · have hB : tierBInconclusive env := ⟨h3, h4, hokB⟩
      by_cases h5 : env.respC.status = 404
      · refine Or.inr (Or.inr (Or.inr (Or.inr (Or.inr (Or.inr
          (Or.inl ⟨hA, hB, h5, ?_⟩))))))
        simp [apiCheck, hv, h1, h2, hok, h3, h4, hokB, h5]
      cases h6 : isOk env.respC.status with
      | true =>
        refine Or.inr (Or.inr (Or.inr (Or.inr (Or.inr (Or.inr (Or.inr
          (Or.inl ⟨hA, hB, h5, rfl, ?_⟩)))))))
        simp [apiCheck, hv, h1, h2, hok, h3, h4, hokB, h5, h6]
      | false =>
        refine Or.inr (Or.inr (Or.inr (Or.inr (Or.inr (Or.inr (Or.inr
          (Or.inr ⟨hA, hB, h5, rfl, ?_⟩)))))))
        simp [apiCheck, hv, h1, h2, hok, h3, h4, hokB, h5, h6]
    · refine Or.inr (Or.inr (Or.inr (Or.inr (Or.inr (Or.inl
        ⟨hA, h3, h4, uu2, rfl, ?_⟩)))))
      simp [apiCheck, hv, h1, h2, hok, h3, h4, hokB]
  · refine Or.inr (Or.inr (Or.inl ⟨h1, h2, uu, rfl, ?_⟩))
    simp [apiCheck, hv, h1, h2, hok]

/-- On a valid username with an inconclusive Tier A, Tier B is probed. -/
theorem probeB_mem_of_tierA_inconclusive (u : String) (env : Env)
    (hv : isValidUsername u = true) (hA : tierAInconclusive env) :
    Ev.probeB ∈ (apiCheck u env).2 := by
  rcases apiCheck_result u env hv with
    ⟨h1, -⟩ | ⟨-, h2, -⟩ | ⟨-, -, uu, hok, -⟩ | ⟨-, -, he⟩ | ⟨-, -, -, he⟩ |
    ⟨-, -, -, uu, -, he⟩ | ⟨-, -, -, he⟩ | ⟨-, -, -, -, he⟩ | ⟨-, -, -, -, he⟩
  · exact absurd h1 hA.1
  · exact absurd h2 hA.2.1
  · rw [hA.2.2] at hok; cases hok
  all_goals rw [he]; simp

/-! ### C4: invalid identifiers short-circuit with zero probes -/

/-- C4: an identifier rejected by the Validator yields the 400
InvalidIdentifier result and an empty outbound trace (zero probe calls) in
the multi-tier engine, and zero outbound calls in both single-tier
handlers. -/
theorem c4_invalid_identifier_zero_probes (u : String) (env : Env)
    (r1 r2 : UpResp) (h : isValidUsername u = false) :
    apiCheck u env = (.invalid 400 invalidUsernameMsg, []) ∧
    nodeCheck u r1 = (.invalid 400 invalidUsernameMsg, 0) ∧
    edgeCheck u r2 = (.invalid 400 invalidUsernameMsg, 0) := by
  refine ⟨?_, ?_, ?_⟩
  · simp [apiCheck, h]
  · simp [nodeCheck, h]
  · simp [edgeCheck, h]

/-- Witness for C4 at the concrete invalid identifier `"bad..name"`. -/
theorem c4_invalid_identifier_zero_probes_witness :
    isValidUsername "bad..name" = false ∧
    apiCheck "bad..name"
        ⟨⟨404, .malformed⟩, ⟨200, .parsed none⟩, ⟨200, .parsed none⟩,
          ⟨200, .malformed⟩⟩ =
      (.invalid 400 invalidUsernameMsg, []) :=
  ⟨by decide,
    (c4_invalid_identifier_zero_probes "bad..name"
      ⟨⟨404, .malformed⟩, ⟨200, .parsed none⟩, ⟨200, .parsed none⟩,
        ⟨200, .malformed⟩⟩
      ⟨200, .parsed none⟩ ⟨200, .parsed none⟩ (by decide)).1⟩

/-! ### C9: Tier A and Tier B 5xx, Tier C 404 -/

/-- C9: when Tier A and Tier B both answer with 5xx statuses and Tier C
answers 404, the engine returns `{available:true, exists:false}` with
Tier C's provenance label (`"public profile page"`) as `via`, after probing
exactly A, B, C once each. -/
theorem c9_five_xx_then_tier_c_404 (u : String) (env : Env)
    (hv : isValidUsername u = true)
    (hA1 : 500 ≤ env.respA1.status) (hA2 : env.respA1.status ≤ 599)
    (hB1 : 500 ≤ env.respB.status) (hB2 : env.respB.status ≤ 599)
    (hC : env.respC.status = 404) :
    apiCheck u env =
      (.verdict (notFoundVerdict u srcC), [.probeA, .probeB, .probeC]) ∧
    (notFoundVerdict u srcC).available = some true ∧
    (notFoundVerdict u srcC).«exists» = some false ∧
    (notFoundVerdict u srcC).via = "public profile page" := by
  have h1 : env.respA1.status ≠ 404 := by omega
  have h2 : env.respA1.status ≠ 429 := by omega
  have hr : ¬ retriesA env := by unfold retriesA; omega
  have hOkA : okBody (effectiveA env) = none := by
    apply okBody_none_of_not_ok
    rw [effectiveA, if_neg hr, isOk_eq_false_iff]
    omega
  have hB404 : env.respB.status ≠ 404 := by omega
  have hB429 : env.respB.status ≠ 429 := by omega
  have hOkB : okBody env.respB = none := by
    apply okBody_none_of_not_ok
    rw [isOk_eq_false_iff]
    omega
  refine ⟨?_, rfl, rfl, rfl⟩
  simp [apiCheck, hv, h1, h2, hOkA, hB404, hB429, hOkB, hC, tierATrace, hr]

/-- Witness for C9 at a concrete environment (A 500, B 503, C 404). -/
theorem c9_five_xx_then_tier_c_404_witness :
    apiCheck "alice"
        ⟨⟨500, .malformed⟩, ⟨200, .parsed none⟩, ⟨503, .malformed⟩,
          ⟨404, .malformed⟩⟩ =
      (.verdict (notFoundVerdict "alice" srcC), [.probeA, .probeB, .probeC]) :=
  (c9_five_xx_then_tier_c_404 "alice"
    ⟨⟨500, .malformed⟩, ⟨200, .parsed none⟩, ⟨503, .malformed⟩,
      ⟨404, .malformed⟩⟩
    (by decide) (by decide) (by decide) (by decide) (by decide) rfl).1

/-! ### C8: Tier C inconclusive gives the 502 upstream-error Unknown -/

/-- C8: when Tiers A and B are inconclusive and Tier C's status is neither
404 nor OK, the engine returns the Unknown verdict (`available=null`,
`exists=null`) whose error carries Tier C's status code, mapped to HTTP
502; conversely a 502 verdict arises only in exactly this
all-tiers-exhausted situation. -/
theorem c8_upstream_only_when_exhausted (u : String) (env : Env)
    (hv : isValidUsername u = true) :
    (tierAInconclusive env → tierBInconclusive env →
      env.respC.status ≠ 404 → isOk env.respC.status = false →
      apiCheck u env = (.verdict (upstreamVerdict u srcC env.respC.status),
        tierATrace env ++ [.probeB, .probeC])) ∧
    (∀ (v : Verdict) (t : List Ev), apiCheck u env = (.verdict v, t) →
      v.httpStatus = 502 →
      tierAInconclusive env ∧ tierBInconclusive env ∧
        env.respC.status ≠ 404 ∧ isOk env.respC.status = false ∧
        v = upstreamVerdict u srcC env.respC.status) := by
  constructor
  · rintro ⟨h1, h2, hok⟩ ⟨h3, h4, hokB⟩ h5 h6
    simp [apiCheck, hv, h1, h2, hok, h3, h4, hokB, h5, h6]
  · intro v t h hst
    rcases apiCheck_result u env hv with
      ⟨-, he⟩ | ⟨-, -, he⟩ | ⟨-, -, uu, -, he⟩ | ⟨-, -, he⟩ | ⟨-, -, -, he⟩ |
      ⟨-, -, -, uu, -, he⟩ | ⟨-, -, -, he⟩ | ⟨-, -, -, -, he⟩ |
      ⟨hA, hB, h5, h6, he⟩
    · rw [he] at h
      simp only [Prod.mk.injEq, ApiResult.verdict.injEq] at h
      rw [← h.1] at hst
      simp [notFoundVerdict] at hst
    · rw [he] at h
      simp only [Prod.mk.injEq, ApiResult.verdict.injEq] at h
      rw [← h.1] at hst
      simp [rateLimitedVerdict] at hst
    · rw [he] at h
      simp only [Prod.mk.injEq, ApiResult.verdict.injEq] at h
      rw [← h.1] at hst
      cases uu <;>
        simp [userVerdict, availablePlainVerdict, foundVerdict] at hst
    · rw [he] at h
      simp only [Prod.mk.injEq, ApiResult.verdict.injEq] at h
      rw [← h.1] at hst
      simp [notFoundVerdict] at hst
    · rw [he] at h
      simp only [Prod.mk.injEq, ApiResult.verdict.injEq] at h
      rw [← h.1] at hst
      simp [rateLimitedVerdict] at hst
    · rw [he] at h
      simp only [Prod.mk.injEq, ApiResult.verdict.injEq] at h
      rw [← h.1] at hst
      cases uu <;>
        simp [userVerdict, availablePlainVerdict, foundVerdict] at hst
    · rw [he] at h
      simp only [Prod.mk.injEq, ApiResult.verdict.injEq] at h
      rw [← h.1] at hst
      simp [notFoundVerdict] at hst
    · rw [he] at h
      simp only [Prod.mk.injEq, ApiResult.verdict.injEq] at h
      rw [← h.1] at hst
      simp [lowConfVerdict] at hst
    · rw [he] at h
      simp only [Prod.mk.injEq, ApiResult.verdict.injEq] at h
      exact ⟨hA, hB, h5, h6, h.1.symm⟩

/-- The environment of the C8 witness: A 500, B 500, C 503. -/
def c8env : Env :=
  ⟨⟨500, .malformed⟩, ⟨200, .parsed none⟩, ⟨500, .malformed⟩,
    ⟨503, .malformed⟩⟩

/-- Witness for C8 at a concrete exhausted environment. -/
theorem c8_upstream_only_when_exhausted_witness :
    apiCheck "carol" c8env =
      (.verdict (upstreamVerdict "carol" srcC c8env.respC.status),
        tierATrace c8env ++ [.probeB, .probeC]) :=
  (c8_upstream_only_when_exhausted "carol" c8env (by decide)).1
    ⟨by decide, by decide, by decide⟩ ⟨by decide, by decide, by decide⟩
    (by decide) (by decide)

/-! ### C1: 429 handling per tier (corrected) -/

/-- C1 (amended): a 429 on Tier A's FIRST probe or on Tier B yields the
rate-limited Unknown verdict (`available=null`, `exists=null`, HTTP 429)
and no later tier is contacted; but a 429 on Tier A's retry does not
terminate (Tier B is still probed), and a 429 at Tier C is reported as the
502 upstream-error Unknown, not as a rate-limited error. -/
theorem c1_rate_limit_handling (u : String) (env : Env)
    (hv : isValidUsername u = true) :
    (env.respA1.status = 429 →
      apiCheck u env = (.verdict (rateLimitedVerdict u srcA), [.probeA])) ∧
    (tierAInconclusive env → env.respB.status = 429 →
      (apiCheck u env).1 = .verdict (rateLimitedVerdict u srcB) ∧
        Ev.probeC ∉ (apiCheck u env).2) ∧
    (tierAInconclusive env → tierBInconclusive env →
      env.respC.status = 429 →
      (apiCheck u env).1 = .verdict (upstreamVerdict u srcC 429) ∧
      (upstreamVerdict u srcC 429).available = none ∧
      (upstreamVerdict u srcC 429).«exists» = none ∧
      (upstreamVerdict u srcC 429).error = some "Upstream error 429" ∧
      (upstreamVerdict u srcC 429).error ≠ some rateLimitedMsg ∧
      (upstreamVerdict u srcC 429).httpStatus = 502) ∧
    (retriesA env → env.respA2.status = 429 →
      Ev.probeB ∈ (apiCheck u env).2) := by
  refine ⟨?_, ?_, ?_, ?_⟩
  · intro h429
    have h404 : env.respA1.status ≠ 404 := by omega
    simp [apiCheck, hv, h404, h429]
  · rintro ⟨h1, h2, hok⟩ hB429
    have hB404 : env.respB.status ≠ 404 := by omega
    have hres : apiCheck u env =
        (.verdict (rateLimitedVerdict u srcB), tierATrace env ++ [.probeB]) := by
      simp [apiCheck, hv, h1, h2, hok, hB404, hB429]
    rw [hres]
    exact ⟨rfl, by simp [probeC_not_mem_tierATrace env]⟩
  · rintro ⟨h1, h2, hok⟩ ⟨h3, h4, hokB⟩ hC429
    have h5 : env.respC.status ≠ 404 := by omega
    have h6 : isOk env.respC.status = false := by rw [hC429]; decide
    have hres : apiCheck u env =
        (.verdict (upstreamVerdict u srcC env.respC.status),
          tierATrace env ++ [.probeB, .probeC]) := by
      simp [apiCheck, hv, h1, h2, hok, h3, h4, hokB, h5, h6]
    rw [hC429] at hres
    rw [hres]
    have hne : (upstreamVerdict u srcC 429).error ≠ some rateLimitedMsg := by
      show some ("Upstream error " ++ toString 429) ≠ some rateLimitedMsg
      decide
    exact ⟨rfl, rfl, rfl, rfl, hne, rfl⟩
  · intro hr h429
    have h404 : env.respA1.status ≠ 404 := by
      rcases hr with h | h <;> omega
    have h429A : env.respA1.status ≠ 429 := by
      rcases hr with h | h <;> omega
    have hEff : effectiveA env = env.respA2 := by
      rw [effectiveA, if_pos hr]
    have hnone : okBody (effectiveA env) = none := by
      rw [hEff]
      exact okBody_none_of_not_ok _ (by rw [h429]; decide)
    exact probeB_mem_of_tierA_inconclusive u env hv ⟨h404, h429A, hnone⟩

/-- Witness for C1's amended theorem: Tier A answers 429 directly. -/
theorem c1_rate_limit_handling_witness :
    apiCheck "dave"
        ⟨⟨429, .malformed⟩, ⟨200, .parsed none⟩, ⟨200, .parsed none⟩,
          ⟨200, .malformed⟩⟩ =
      (.verdict (rateLimitedVerdict "dave" srcA), [.probeA]) :=
  (c1_rate_limit_handling "dave"
    ⟨⟨429, .malformed⟩, ⟨200, .parsed none⟩, ⟨200, .parsed none⟩,
      ⟨200, .malformed⟩⟩ (by decide)).1 rfl

/-- The environment refuting C1 as stated: A and B inconclusive (500),
C answers 429. -/
def c1env : Env :=
  ⟨⟨500, .malformed⟩, ⟨500, .malformed⟩, ⟨500, .malformed⟩,
    ⟨429, .malformed⟩⟩

/-- Counterexample to C1 as stated: Tier C's probe returns 429, yet the
result is the 502 upstream-error Unknown — its error is
`"Upstream error 429"`, not the rate-limited error, and the HTTP status is
502, not 429. -/
theorem c1_rate_limit_counterexample :
    c1env.respC.status = 429 ∧
    (apiCheck "alice" c1env).1 = .verdict (upstreamVerdict "alice" srcC 429) ∧
    (upstreamVerdict "alice" srcC 429).error = some "Upstream error 429" ∧
    (upstreamVerdict "alice" srcC 429).error ≠ some rateLimitedMsg ∧
    (upstreamVerdict "alice" srcC 429).httpStatus = 502 :=
  ⟨rfl, rfl, rfl, by decide, rfl⟩

/-! ### C3: 404 handling per tier (corrected) -/

/-- C3 (amended): a 404 on Tier A's FIRST probe, on Tier B, or on Tier C
yields `{available:true, exists:false}` and no later tier is contacted;
but a 404 on Tier A's retry does not terminate — the engine advances to
Tier B. -/
theorem c3_not_found_handling (u : String) (env : Env)
    (hv : isValidUsername u = true) :
    (env.respA1.status = 404 →
      apiCheck u env = (.verdict (notFoundVerdict u srcA), [.probeA])) ∧
    (tierAInconclusive env → env.respB.status = 404 →
      (apiCheck u env).1 = .verdict (notFoundVerdict u srcB) ∧
        Ev.probeC ∉ (apiCheck u env).2) ∧
    (tierAInconclusive env → tierBInconclusive env →
      env.respC.status = 404 →
      (apiCheck u env).1 = .verdict (notFoundVerdict u srcC) ∧
      (notFoundVerdict u srcC).available = some true ∧
      (notFoundVerdict u srcC).«exists» = some false) ∧
    (retriesA env → env.respA2.status = 404 →
      Ev.probeB ∈ (apiCheck u env).2) := by
  refine ⟨?_, ?_, ?_, ?_⟩
  · intro h404
    simp [apiCheck, hv, h404]
  · rintro ⟨h1, h2, hok⟩ hB404
    have hres : apiCheck u env =
        (.verdict (notFoundVerdict u srcB), tierATrace env ++ [.probeB]) := by
      simp [apiCheck, hv, h1, h2, hok, hB404]
    rw [hres]
    exact ⟨rfl, by simp [probeC_not_mem_tierATrace env]⟩
  · rintro ⟨h1, h2, hok⟩ ⟨h3, h4, hokB⟩ hC404
    have hres : apiCheck u env =
        (.verdict (notFoundVerdict u srcC),
          tierATrace env ++ [.probeB, .probeC]) := by
      simp [apiCheck, hv, h1, h2, hok, h3, h4, hokB, hC404]
    rw [hres]
    exact ⟨rfl, rfl, rfl⟩
  · intro hr h404
    have hne404 : env.respA1.status ≠ 404 := by
      rcases hr with h | h <;> omega
    have hne429 : env.respA1.status ≠ 429 := by
      rcases hr with h | h <;> omega
    have hEff : effectiveA env = env.respA2 := by
      rw [effectiveA, if_pos hr]
    have hnone : okBody (effectiveA env) = none := by
      rw [hEff]
      exact okBody_none_of_not_ok _ (by rw [h404]; decide)
    exact probeB_mem_of_tierA_inconclusive u env hv ⟨hne404, hne429, hnone⟩

/-- Witness for C3's amended theorem: Tier A answers 404 directly. -/
theorem c3_not_found_handling_witness :
    apiCheck "erin"
        ⟨⟨404, .malformed⟩, ⟨200, .parsed none⟩, ⟨200, .parsed none⟩,
          ⟨200, .malformed⟩⟩ =
      (.verdict (notFoundVerdict "erin" srcA), [.probeA]) :=
  (c3_not_found_handling "erin"
    ⟨⟨404, .malformed⟩, ⟨200, .parsed none⟩, ⟨200, .parsed none⟩,
      ⟨200, .malformed⟩⟩ (by decide)).1 rfl

/-- A concrete found profile used by the C3 counterexample. -/
def c3user : IGUser :=
  { id := "77", full_name := "Taken Name", is_private := false,
    is_verified := false, edge_followed_by := some 10,
    edge_follow := some 5,
    profile_pic_url_hd := some "https://cdn.example/t_hd.jpg",
    profile_pic_url := none }

/-- The environment refuting C3 as stated: A answers 400, the retry
answers 404, B answers 200 with a profile. -/
def c3env : Env :=
  ⟨⟨400, .malformed⟩, ⟨404, .malformed⟩, ⟨200, .parsed (some c3user)⟩,
    ⟨200, .malformed⟩⟩

/-- Counterexample to C3 as stated: Tier A's retry probe returns 404, yet
Tier B is contacted afterwards and the final result is
`{available:false, exists:true}`, not `{available:true, exists:false}`. -/
theorem c3_not_found_counterexample :
    c3env.respA2.status = 404 ∧
    Ev.probeB ∈ (apiCheck "alice" c3env).2 ∧
    (apiCheck "alice" c3env).1 = .verdict (foundVerdict "alice" srcB c3user) ∧
    (foundVerdict "alice" srcB c3user).available = some false ∧
    (foundVerdict "alice" srcB c3user).«exists» = some true :=
  ⟨rfl, by decide, rfl, rfl, rfl⟩

/-! ### Trace shapes (for the retry-count properties of C2) -/

theorem apiCheck_trace_cases (u : String) (env : Env)
    (hv : isValidUsername u = true) :
    (apiCheck u env).2 = [Ev.probeA] ∨
    (apiCheck u env).2 = tierATrace env ∨
    (apiCheck u env).2 = tierATrace env ++ [Ev.probeB] ∨
    (apiCheck u env).2 = tierATrace env ++ [Ev.probeB, Ev.probeC] := by
  rcases apiCheck_result u env hv with
    ⟨-, he⟩ | ⟨-, -, he⟩ | ⟨-, -, uu, -, he⟩ | ⟨-, -, he⟩ | ⟨-, -, -, he⟩ |
    ⟨-, -, -, uu, -, he⟩ | ⟨-, -, -, he⟩ | ⟨-, -, -, -, he⟩ | ⟨-, -, -, -, he⟩
  · left; rw [he]
  · left; rw [he]
  · right; left; rw [he]
  · right; right; left; rw [he]
  · right; right; left; rw [he]
  · right; right; left; rw [he]
  all_goals right; right; right; rw [he]

theorem tierATrace_retry (env : Env) (h : retriesA env) :
    tierATrace env = [Ev.probeA, Ev.delayMs 250, Ev.probeA] := by
  rw [tierATrace, if_pos h]

theorem tierATrace_no_retry (env : Env) (h : ¬ retriesA env) :
    tierATrace env = [Ev.probeA] := by
  rw [tierATrace, if_neg h]

/-! ### C2: the single Tier A retry (corrected) -/

/-- C2 (amended): on a 400/403 from Tier A's first probe the engine performs
exactly one retry after the fixed 250 ms delay (the trace begins
`probeA, delay 250, probeA` and contains exactly two Tier A probes); the
retry's outcome is then classified only by the OK-body rules — an OK body
with a null user gives Available via Tier A, an OK body with a user gives
Found via Tier A, and anything else (including 404, 429, or another
400/403 on the retry) is inconclusive and Tier B is probed.  Without a
400/403 first answer Tier A is probed at most once, and Tiers B and C are
never probed more than once. -/
theorem c2_single_retry (u : String) (env : Env)
    (hv : isValidUsername u = true) :
    ((apiCheck u env).2.count Ev.probeA ≤ 2 ∧
     (apiCheck u env).2.count Ev.probeB ≤ 1 ∧
     (apiCheck u env).2.count Ev.probeC ≤ 1) ∧
    (¬ retriesA env → (apiCheck u env).2.count Ev.probeA ≤ 1) ∧
    (retriesA env →
      (apiCheck u env).2.take 3 = [Ev.probeA, Ev.delayMs 250, Ev.probeA] ∧
      (apiCheck u env).2.count Ev.probeA = 2 ∧
      (okBody env.respA2 = some none →
        (apiCheck u env).1 = .verdict (availablePlainVerdict u srcA)) ∧
      (∀ user, okBody env.respA2 = some (some user) →
        (apiCheck u env).1 = .verdict (foundVerdict u srcA user)) ∧
      (okBody env.respA2 = none → Ev.probeB ∈ (apiCheck u env).2)) := by
  have htr := apiCheck_trace_cases u env hv
  refine ⟨?_, ?_, ?_⟩
  · by_cases hr : retriesA env
    · rw [tierATrace_retry env hr] at htr
      rcases htr with he | he | he | he <;> rw [he] <;> refine ⟨?_, ?_, ?_⟩
        <;> decide
    · rw [tierATrace_no_retry env hr] at htr
      rcases htr with he | he | he | he <;> rw [he] <;> refine ⟨?_, ?_, ?_⟩
        <;> decide
  · intro hr
    rw [tierATrace_no_retry env hr] at htr
    rcases htr with he | he | he | he <;> rw [he] <;> decide
  · intro hr
    have hne404 : env.respA1.status ≠ 404 := by
      rcases hr with h | h <;> omega
    have hne429 : env.respA1.status ≠ 429 := by
      rcases hr with h | h <;> omega
    have hEff : effectiveA env = env.respA2 := by
      rw [effectiveA, if_pos hr]
    rw [tierATrace_retry env hr] at htr
    have hnotbare : (apiCheck u env).2 ≠ [Ev.probeA] := by
      rcases apiCheck_result u env hv with
        ⟨h1, -⟩ | ⟨-, h2, -⟩ | ⟨-, -, _uu, -, he2⟩ | ⟨-, -, he2⟩ |
        ⟨-, -, -, he2⟩ | ⟨-, -, -, _uu, -, he2⟩ | ⟨-, -, -, he2⟩ |
        ⟨-, -, -, -, he2⟩ | ⟨-, -, -, -, he2⟩
      · exact absurd h1 hne404
      · exact absurd h2 hne429
      all_goals rw [he2]
      all_goals simp [tierATrace_retry env hr]
    refine ⟨?_, ?_, ?_, ?_, ?_⟩
    · rcases htr with he | he | he | he
      · exact absurd he hnotbare
      all_goals rw [he]; decide
    · rcases htr with he | he | he | he
      · exact absurd he hnotbare
      all_goals rw [he]; decide
    · intro hok
      have hok' : okBody (effectiveA env) = some none := by rw [hEff]; exact hok
      simp [apiCheck, hv, hne404, hne429, hok', userVerdict]
    · intro user hok
      have hok' : okBody (effectiveA env) = some (some user) := by
        rw [hEff]; exact hok
      simp [apiCheck, hv, hne404, hne429, hok', userVerdict]
    · intro hok
      have hok' : okBody (effectiveA env) = none := by rw [hEff]; exact hok
      exact probeB_mem_of_tierA_inconclusive u env hv ⟨hne404, hne429, hok'⟩

/-- The environment of the C2 witness: A 400, retry 200 with empty payload. -/
def c2wenv : Env :=
  ⟨⟨400, .malformed⟩, ⟨200, .parsed none⟩, ⟨200, .parsed none⟩,
    ⟨200, .malformed⟩⟩

/-- Witness for C2's amended theorem: 400 then 200-with-empty-payload on the
retry gives exactly one retry and the Available verdict via Tier A. -/
theorem c2_single_retry_witness :
    (apiCheck "frank" c2wenv).2.take 3 =
      [Ev.probeA, Ev.delayMs 250, Ev.probeA] ∧
    (apiCheck "frank" c2wenv).1 =
      .verdict (availablePlainVerdict "frank" srcA) := by
  have h := (c2_single_retry "frank" c2wenv (by decide)).2.2 (Or.inl rfl)
  exact ⟨h.1, h.2.2.1 rfl⟩

/-- The environment refuting C2 as stated: A answers 400, the retry answers
429, B answers 404. -/
def c2env : Env :=
  ⟨⟨400, .malformed⟩, ⟨429, .malformed⟩, ⟨404, .malformed⟩,
    ⟨200, .malformed⟩⟩

/-- Counterexample to C2 as stated: after the single retry returns 429 the
engine does NOT re-apply the 429 rule — instead of the rate-limited Unknown
verdict it advances to Tier B and ends with `{available:true, exists:false}`
via Tier B and no error. -/
theorem c2_retry_counterexample :
    c2env.respA1.status = 400 ∧ c2env.respA2.status = 429 ∧
    apiCheck "alice" c2env = (.verdict (notFoundVerdict "alice" srcB),
      [Ev.probeA, Ev.delayMs 250, Ev.probeA, Ev.probeB]) ∧
    (notFoundVerdict "alice" srcB).available = some true ∧
    (notFoundVerdict "alice" srcB).error = none :=
  ⟨rfl, rfl, rfl, rfl, rfl⟩

/-! ### C7: the available/exists null invariant -/

/-- The invariant claimed for every produced verdict: `available` and
`exists` are opposites when non-null, and both are null exactly when an
error (rate-limited or upstream failure) is surfaced. -/
def verdictInvariant (v : Verdict) : Prop :=
  ((v.available = some true ∧ v.«exists» = some false) ∨
   (v.available = some false ∧ v.«exists» = some true) ∨
   (v.available = none ∧ v.«exists» = none)) ∧
  ((v.available = none ∧ v.«exists» = none) ↔ v.error ≠ none)

/-- The same invariant for the edge handler's verdicts. -/
def edgeVerdictInvariant (v : EdgeVerdict) : Prop :=
  ((v.available = some true ∧ v.«exists» = some false) ∨
   (v.available = some false ∧ v.«exists» = some true) ∨
   (v.available = none ∧ v.«exists» = none)) ∧
  ((v.available = none ∧ v.«exists» = none) ↔ v.error ≠ none)

/-- C7: every verdict either handler produces satisfies the invariant:
`available`/`exists` are logical opposites when both non-null, and they are
both null exactly when the verdict surfaces an error (rate-limited or
unclassifiable upstream failure) — null never stands for false. -/
theorem c7_null_invariant :
    (∀ (u : String) (env : Env) (v : Verdict) (t : List Ev),
      apiCheck u env = (.verdict v, t) → verdictInvariant v) ∧
    (∀ (u : String) (r : UpResp) (v : EdgeVerdict) (n : Nat),
      edgeCheck u r = (.verdict v, n) → edgeVerdictInvariant v) := by
  constructor
  · intro u env v t h
    by_cases hv : isValidUsername u = true
    · rcases apiCheck_result u env hv with
        ⟨-, he⟩ | ⟨-, -, he⟩ | ⟨-, -, uu, -, he⟩ | ⟨-, -, he⟩ |
        ⟨-, -, -, he⟩ | ⟨-, -, -, uu, -, he⟩ | ⟨-, -, -, he⟩ |
        ⟨-, -, -, -, he⟩ | ⟨-, -, -, -, he⟩
      all_goals rw [he] at h
      all_goals simp only [Prod.mk.injEq, ApiResult.verdict.injEq] at h
      all_goals rw [← h.1]
      · simp [verdictInvariant, notFoundVerdict]
      · simp [verdictInvariant, rateLimitedVerdict, rateLimitedMsg]
      · cases uu <;>
          simp [verdictInvariant, userVerdict, availablePlainVerdict,
            foundVerdict]
      · simp [verdictInvariant, notFoundVerdict]
      · simp [verdictInvariant, rateLimitedVerdict, rateLimitedMsg]
      · cases uu <;>
          simp [verdictInvariant, userVerdict, availablePlainVerdict,
            foundVerdict]
      · simp [verdictInvariant, notFoundVerdict]
      · simp [verdictInvariant, lowConfVerdict]
      · simp [verdictInvariant, upstreamVerdict]
    · have hvf : isValidUsername u = false := by
        cases hvv : isValidUsername u
        · rfl
        · exact absurd hvv hv
      simp [apiCheck, hvf] at h
  · intro u r v n h
    unfold edgeCheck at h
    split_ifs at h with h1 h2 h3 h4
    · simp at h
    · simp only [Prod.mk.injEq, EdgeResult.verdict.injEq] at h
      rw [← h.1]
      simp [edgeVerdictInvariant, edgeNotFound]
    · simp only [Prod.mk.injEq, EdgeResult.verdict.injEq] at h
      rw [← h.1]
      simp [edgeVerdictInvariant, edgeRateLimited, edgeRateLimitedMsg]
    · simp only [Prod.mk.injEq, EdgeResult.verdict.injEq] at h
      rw [← h.1]
      simp [edgeVerdictInvariant, edgeUpstream]
    · rcases hb : r.body with _ | uu
      all_goals rw [hb] at h
      · simp only [Prod.mk.injEq, EdgeResult.verdict.injEq] at h
        rw [← h.1]
        simp [edgeVerdictInvariant, edgeNonJson, nonJsonMsg]
      · cases uu
        all_goals simp only [Prod.mk.injEq, EdgeResult.verdict.injEq] at h
        all_goals rw [← h.1]
        · simp [edgeVerdictInvariant, edgeAvailable]
        · simp [edgeVerdictInvariant, edgeFound]

/-- Witness for C7 at concrete 404 responses for both handlers. -/
theorem c7_null_invariant_witness :
    verdictInvariant (notFoundVerdict "gina" srcA) ∧
    edgeVerdictInvariant (edgeNotFound "gina") :=
  ⟨c7_null_invariant.1 "gina"
      ⟨⟨404, .malformed⟩, ⟨200, .parsed none⟩, ⟨200, .parsed none⟩,
        ⟨200, .malformed⟩⟩
      (notFoundVerdict "gina" srcA) [Ev.probeA] rfl,
    c7_null_invariant.2 "gina" ⟨404, .malformed⟩ (edgeNotFound "gina") 1 rfl⟩

/-! ### C10: representation of absent optional profile fields (corrected) -/

/-- C10 (amended): an avatar URL absent (or empty) at every resolution is
omitted (`none`) in every serialized user — no empty-string or other
sentinel is substituted — and the edge handler keeps absent counts
optional; but in the multi-tier handler and `src/unnamed/part_000` an
absent follower/following count is defaulted to the number 0 in both the
serialized user and the signals. -/
theorem c10_optional_fields (user : IGUser) :
    (user.profile_pic_url_hd = none → user.profile_pic_url = none →
      (mkOutUser user).profile_pic_url = none ∧
      (mkEdgeOutUser user).profile_pic_url = none) ∧
    (user.edge_followed_by = none →
      (mkOutUser user).followers = 0 ∧
      (buildSignalsFromUser user).followers = 0 ∧
      (mkEdgeOutUser user).edge_followed_by = none) ∧
    (user.edge_follow = none →
      (mkOutUser user).following = 0 ∧
      (buildSignalsFromUser user).following = 0 ∧
      (mkEdgeOutUser user).edge_follow = none) := by
  refine ⟨?_, ?_, ?_⟩
  · intro h1 h2
    constructor <;>
      simp [mkOutUser, mkEdgeOutUser, jsOrStr, jsTruthyStr, h1, h2]
  · intro h
    refine ⟨?_, ?_, ?_⟩ <;>
      simp [mkOutUser, mkEdgeOutUser, buildSignalsFromUser, h]
  · intro h
    refine ⟨?_, ?_, ?_⟩ <;>
      simp [mkOutUser, mkEdgeOutUser, buildSignalsFromUser, h]

/-- A profile with no counts and no avatar in the upstream payload. -/
def allAbsentUser : IGUser :=
  { id := "a1", full_name := "Absent", is_private := false,
    is_verified := false, edge_followed_by := none, edge_follow := none,
    profile_pic_url_hd := none, profile_pic_url := none }

/-- Witness for C10's amended theorem at `allAbsentUser`. -/
theorem c10_optional_fields_witness :
    (mkOutUser allAbsentUser).profile_pic_url = none ∧
    (mkOutUser allAbsentUser).followers = 0 ∧
    (mkEdgeOutUser allAbsentUser).edge_followed_by = none :=
  ⟨((c10_optional_fields allAbsentUser).1 rfl rfl).1,
    ((c10_optional_fields allAbsentUser).2.1 rfl).1,
    ((c10_optional_fields allAbsentUser).2.1 rfl).2.2⟩

/-- A profile whose follower/following counts are absent upstream. -/
def absentCountUser : IGUser :=
  { id := "z9", full_name := "Zed", is_private := false,
    is_verified := false, edge_followed_by := none, edge_follow := none,
    profile_pic_url_hd := some "https://cdn.example/z.jpg",
    profile_pic_url := none }

/-- The same profile with genuine zero counts. -/
def zeroCountUser : IGUser :=
  { id := "z9", full_name := "Zed", is_private := false,
    is_verified := false, edge_followed_by := some 0, edge_follow := some 0,
    profile_pic_url_hd := some "https://cdn.example/z.jpg",
    profile_pic_url := none }

/-- Counterexample to C10 as stated: in the multi-tier handler's serialized
user, absent counts become the number 0 — a default standing in for
"unknown" — so a profile with absent counts is indistinguishable from one
with genuine zero counts. -/
theorem c10_sentinel_counterexample :
    absentCountUser.edge_followed_by = none ∧
    zeroCountUser.edge_followed_by = some 0 ∧
    absentCountUser ≠ zeroCountUser ∧
    mkOutUser absentCountUser = mkOutUser zeroCountUser ∧
    (mkOutUser absentCountUser).followers = 0 :=
  ⟨rfl, rfl, by decide, by decide, rfl⟩

/-- Witness for C6 at the concrete 100/10 profile. -/
theorem c6_signal_extractor_witness :
    (buildSignalsFromUser hundredTenUser).ratio =
      if 0 < (100 : Nat) then some ((10 : ℚ) / (100 : ℚ)) else none :=
  (c6_signal_extractor.1 hundredTenUser 100 10 rfl rfl).1
